import Mathlib

/-!
Verification of the conversation-routing core of the learning-ai-assistant
repository (`backend/telegram.js`, which contains both the Telegram bot and the
Discord bot implementation).

The JavaScript `Map` objects holding the routing state are embedded as
association lists with JavaScript `Map.set` / `Map.get` / `Map.delete`
semantics.  Platform calls (`bot.sendMessage`, `bot.createForumTopic`,
`guild.channels.fetch`, `channel.threads.create`, `thread.send`) are modelled
by an environment of oracles returning `Except`, mirroring promise
resolution/rejection; every platform interaction performed by a handler is
recorded in an effect trace.  The persistence collaborator call
(`logMessage` from `backend/supabase.js`) is recorded as a `log` effect.
-/

/-- Assoc-list embedding of JavaScript `Map.set`: replace the binding in place
if the key is present, otherwise append the new binding. -/
def mset {α β : Type} [DecidableEq α] : List (α × β) → α → β → List (α × β)
  | [], k, v => [(k, v)]
  | (k', v') :: rest, k, v =>
      if k' = k then (k, v) :: rest else (k', v') :: mset rest k v

/-- Assoc-list embedding of JavaScript `Map.get` (first binding wins). -/
def mget {α β : Type} [DecidableEq α] : List (α × β) → α → Option β
  | [], _ => none
  | (k', v') :: rest, k => if k' = k then some v' else mget rest k

/-- Assoc-list embedding of JavaScript `Map.delete`. -/
def mdel {α β : Type} [DecidableEq α] : List (α × β) → α → List (α × β)
  | [], _ => []
  | (k', v') :: rest, k => if k' = k then mdel rest k else (k', v') :: mdel rest k

/-- Assoc-list embedding of JavaScript `Map.has`. -/
def mhas {α β : Type} [DecidableEq α] (m : List (α × β)) (k : α) : Bool :=
  (mget m k).isSome

/-! JavaScript-semantics helpers. -/

/-- JavaScript `a || b` on an optional string: the empty string is falsy. -/
def jsOrStr (o : Option String) (d : String) : String :=
  match o with
  | some s => if s = "" then d else s
  | none => d

/-- JavaScript truthiness of an optional numeric field (0 and absence are falsy);
used for `msg.message_thread_id` and `message_id` checks. -/
def truthyN (o : Option Nat) : Option Nat :=
  match o with
  | some n => if n = 0 then none else some n
  | none => none

/-- Helper for `jsIncludes`: does `sub` occur as a contiguous run in the list. -/
def jsIncludesAux (sub : List Char) : List Char → Bool
  | [] => sub.isPrefixOf []
  | c :: rest => sub.isPrefixOf (c :: rest) || jsIncludesAux sub rest

/-- JavaScript `String.prototype.includes`. -/
def jsIncludes (s sub : String) : Bool :=
  jsIncludesAux sub.data s.data

/-- Character class of the regex escape `\d` (the ASCII digits). -/
def jsDigit (c : Char) : Bool :=
  48 ≤ c.toNat && c.toNat ≤ 57

/-- Character class of the regex escape `\s`, restricted to the ASCII range
(the messages handled by the routing core contain no exotic Unicode spaces). -/
def jsWhitespaceChar (c : Char) : Bool :=
  c.toNat = 32 || c.toNat = 9 || c.toNat = 10 || c.toNat = 13
    || c.toNat = 11 || c.toNat = 12

/-- Characters that the regex `.` (without the `s` flag) does not match:
LF, CR, LINE SEPARATOR, PARAGRAPH SEPARATOR. -/
def jsLineTerminator (c : Char) : Bool :=
  c.toNat = 10 || c.toNat = 13 || c.toNat = 8232 || c.toNat = 8233

/-- JavaScript `parseInt` on a string of decimal digits. -/
def natOfDigits (l : List Char) : Nat :=
  l.foldl (fun n c => n * 10 + (c.toNat - '0'.toNat)) 0

/-- Matcher for the legacy reply regex `^r(\d+)\s+(.+)$` of
`handleManagementReply`, on the character list of the text.  Greedy matching
with backtracking: `\d+` takes the maximal digit run (no shorter run can be
followed by `\s`), `\s+` takes the maximal whitespace run and gives back at
most its final character when `(.+)$` would otherwise be empty. -/
def legacyReplyMatchAux (l : List Char) : Option (String × String) :=
  match l with
  | [] => none
  | c :: rest =>
    if c = 'r' then
      let ds := rest.takeWhile jsDigit
      let rest2 := rest.dropWhile jsDigit
      if ds = [] then none
      else
        let ws := rest2.takeWhile jsWhitespaceChar
        let body := rest2.dropWhile jsWhitespaceChar
        if ws = [] then none
        else if body ≠ [] then
          if body.all (fun c => !jsLineTerminator c) then
            some (String.mk ds, String.mk body)
          else none
        else
          match ws.getLast? with
          | some w =>
              if 2 ≤ ws.length && !jsLineTerminator w then
                some (String.mk ds, String.mk [w])
              else none
          | none => none
    else none

/-- Matcher for `text.match(/^r(\d+)\s+(.+)$/)`. -/
def legacyReplyMatch (s : String) : Option (String × String) :=
  legacyReplyMatchAux s.data

/-- Matcher for the `/info` regex `^\/info\s+(\d+)$` of `handleInfoCommand`
(`\s` and `\d` are disjoint, so the greedy split is forced). -/
def infoMatchAux (l : List Char) : Option String :=
  match l with
  | '/' :: 'i' :: 'n' :: 'f' :: 'o' :: rest =>
      let ws := rest.takeWhile jsWhitespaceChar
      let ds := rest.dropWhile jsWhitespaceChar
      if ws ≠ [] && ds ≠ [] && ds.all jsDigit then some (String.mk ds) else none
  | _ => none

/-- Matcher for `msg.text.match(/^\/info\s+(\d+)$/)`. -/
def infoMatch (s : String) : Option String :=
  infoMatchAux s.data

/-- Matcher for the manual-link regex `^\/link_topic\s+(\d+)\s+(\d+)$`
(again the greedy split is forced since digits and whitespace are disjoint).
The first capture is kept as a string and the second goes through `parseInt`,
exactly as in the handler. -/
def linkTopicMatchAux (l : List Char) : Option (String × Nat) :=
  match l with
  | '/' :: 'l' :: 'i' :: 'n' :: 'k' :: '_' :: 't' :: 'o' :: 'p' :: 'i' :: 'c' :: rest =>
      let ws1 := rest.takeWhile jsWhitespaceChar
      let r1 := rest.dropWhile jsWhitespaceChar
      let ds1 := r1.takeWhile jsDigit
      let r2 := r1.dropWhile jsDigit
      let ws2 := r2.takeWhile jsWhitespaceChar
      let ds2 := r2.dropWhile jsWhitespaceChar
      if ws1 ≠ [] && ds1 ≠ [] && ws2 ≠ [] && ds2 ≠ [] && ds2.all jsDigit then
        some (String.mk ds1, natOfDigits ds2)
      else none
  | _ => none

/-- Matcher for `msg.text?.match(/^\/link_topic\s+(\d+)\s+(\d+)$/)`. -/
def linkTopicMatch (s : String) : Option (String × Nat) :=
  linkTopicMatchAux s.data

/-! Telegram data model (`backend/telegram.js`). -/

/-- The `msg.from` object of a Telegram update, restricted to the fields the
routing core reads. -/
structure TgFrom where
  username : Option String
  firstName : Option String
  isBot : Bool
deriving DecidableEq

/-- A normalized inbound Telegram message, restricted to the fields the
routing core reads.  `replyToMessageId` is `msg.reply_to_message?.message_id`
(`none` when the message is not a reply). -/
structure TgMessage where
  messageId : Nat
  chatId : Int
  chatType : String
  sender : Option TgFrom
  text : Option String
  messageThreadId : Option Nat
  replyToMessageId : Option Nat
deriving DecidableEq

/-- The value type of the `pendingReplies` map: the ForwardRecord kept for the
most recent forwarded message of one user. -/
structure PendingInfo where
  username : String
  originalMessage : String
  forwardedMessageId : Nat
  topicId : Option Nat
  timestamp : Nat
deriving DecidableEq

/-- The mutable module-level state of the Telegram bot: the three routing maps
the claims are about plus the management-chat verification flag.
(`conversationMap` is declared in the source but never used.) -/
structure TgState where
  pendingReplies : List (String × PendingInfo)
  forwardedMessageMap : List (String × String)
  userTopics : List (String × Nat)
  topicUsers : List (Nat × String)
  managementChatVerified : Bool
deriving DecidableEq

/-- Startup configuration of the Telegram bot: `MANAGEMENT_CHAT_ID` (already
reduced by the `||` chain, `none` when unset) and the `USE_TOPICS` flag. -/
structure TgConfig where
  managementChatId : Option String
  useTopics : Bool
deriving DecidableEq

/-- Platform oracle: resolution or rejection of each Telegram Bot API call.
`send` takes the destination chat, the optional `message_thread_id`, the
optional `reply_to_message_id` and the text, and yields the `message_id` of
the sent message or the error message of the rejection.  `createTopic` models
`bot.createForumTopic` and yields the `message_thread_id` of the new topic.
`now` models `new Date()`. -/
structure Env where
  send : String → Option Nat → Option Nat → String → Except String Nat
  createTopic : String → String → Except String Nat
  now : Nat

deriving instance DecidableEq for Except

/-- Trace of the observable actions of one handler invocation: persistence
records (`logMessage`), message sends and topic creations, each send/create
carrying the oracle result it received. -/
inductive Effect where
  | log (platform : String) (messageId : Nat)
  | send (chatId : String) (threadId : Option Nat) (replyTo : Option Nat)
      (text : String) (result : Except String Nat)
  | createTopic (chatId : String) (name : String) (result : Except String Nat)
deriving DecidableEq

/-- The management chat id as the handlers read it from the module-level
constant (only dereferenced on paths where it is set). -/
def mgmtChatStr (cfg : TgConfig) : String :=
  cfg.managementChatId.getD ""

/-- Resolution `msg.from?.username || msg.from?.first_name || 'Unknown'`. -/
def msgUsername (msg : TgMessage) : String :=
  jsOrStr (msg.sender.bind TgFrom.username)
    (jsOrStr (msg.sender.bind TgFrom.firstName) "Unknown")

/-- Resolution of `msg.from?.is_bot` (absent sender is falsy). -/
def msgIsBot (msg : TgMessage) : Bool :=
  (msg.sender.map TgFrom.isBot).getD false

/-- Text of the connection-test notice sent by `testManagementChat`
(content abbreviated; it is not load-bearing for routing). -/
def testMessageText (useTopics : Bool) : String :=
  "🤖 Bot Setup Complete! You will receive forwarded messages here."
    ++ (if useTopics then " Topic Mode Enabled." else "")

/-- Text of the self-setup notice sent by `setupManagementChatId`
(content abbreviated; it is not load-bearing for routing). -/
def setupText (isGroup : Bool) (chatIdStr : String) : String :=
  "🚀 Setup Complete! Your " ++ (if isGroup then "group" else "personal")
    ++ " chat ID has been detected: " ++ chatIdStr

/-- Label of a user topic: the template of `topicName` in
`getOrCreateUserTopic`. -/
def topicNameFor (username : String) (chatIdStr : String) : String :=
  "💬 " ++ username ++ " (" ++ chatIdStr ++ ")"

/-- Welcome notice posted into a freshly created topic
(content abbreviated; it is not load-bearing for routing). -/
def welcomeText (username : String) (chatIdStr : String) : String :=
  "🎉 New conversation started. User: " ++ username ++ " Chat ID: " ++ chatIdStr

/-- Fallback help notice sent when topic creation fails
(content abbreviated; it is not load-bearing for routing). -/
def manualTopicHelpText (username : String) (chatIdStr : String) : String :=
  "🧵 Manual Topic Creation Needed for " ++ username ++ " (" ++ chatIdStr ++ ")"

/-- Body of the `catch` of `getOrCreateUserTopic`: when the error message
signals a permission/capability problem, a one-shot instructional notice is
sent to the main management chat (its own failure is swallowed). -/
def topicCreationCatch (env : Env) (mgmt username chatIdStr e : String) : List Effect :=
  if jsIncludes e "not enough rights" || jsIncludes e "not found" || jsIncludes e "forum" then
    let t := manualTopicHelpText username chatIdStr
    [Effect.send mgmt none none t (env.send mgmt none none t)]
  else []

/-- Embedding of `getOrCreateUserTopic(chatId, username)`.  Returns the topic
id handed to the caller (or `none` for the no-topic fallback), the state after
the call, and the effect trace.  Note that the cached branch performs no
platform interaction at all, and that a failure leaves no trace in the maps.
When the welcome send rejects, the `catch` runs after both tables were already
written, and the function still returns `null`. -/
def getOrCreateUserTopic (cfg : TgConfig) (st : TgState) (env : Env)
    (chatId : Int) (username : String) : Option Nat × TgState × List Effect :=
  if !cfg.useTopics then (none, st, [])
  else
    let userKey := toString chatId
    match mget st.userTopics userKey with
    | some tid => (some tid, st, [])
    | none =>
        let mgmt := mgmtChatStr cfg
        let topicName := topicNameFor username (toString chatId)
        match env.createTopic mgmt topicName with
        | Except.ok topicId =>
            let st1 := { st with
              userTopics := mset st.userTopics userKey topicId,
              topicUsers := mset st.topicUsers topicId userKey }
            let wt := welcomeText username (toString chatId)
            match env.send mgmt (some topicId) none wt with
            | Except.ok wid =>
                (some topicId, st1,
                  [Effect.createTopic mgmt topicName (Except.ok topicId),
                   Effect.send mgmt (some topicId) none wt (Except.ok wid)])
            | Except.error e =>
                (none, st1,
                  Effect.createTopic mgmt topicName (Except.ok topicId)
                    :: Effect.send mgmt (some topicId) none wt (Except.error e)
                    :: topicCreationCatch env mgmt username (toString chatId) e)
        | Except.error e =>
            (none, st,
              Effect.createTopic mgmt topicName (Except.error e)
                :: topicCreationCatch env mgmt username (toString chatId) e)

/-- Embedding of `testManagementChat()`: returns the success flag together
with the updated `managementChatVerified` state and the trace. -/
def testManagementChat (cfg : TgConfig) (st : TgState) (env : Env) :
    Bool × TgState × List Effect :=
  match cfg.managementChatId with
  | none => (false, st, [])
  | some mgmt =>
      let t := testMessageText cfg.useTopics
      match env.send mgmt none none t with
      | Except.ok mid =>
          (true, { st with managementChatVerified := true },
            [Effect.send mgmt none none t (Except.ok mid)])
      | Except.error e =>
          (false, { st with managementChatVerified := false },
            [Effect.send mgmt none none t (Except.error e)])

/-- The try-block body of `forwardToManagement`, entered once the management
chat is known and verified: resolves/creates the topic, sends the (possibly
label-prefixed) payload, then overwrites the ForwardRecord and inserts the
forwarded-message id into `forwardedMessageMap`.  The `catch` is modelled on
the send result: a rejection drops the forward without touching the two
reply maps (resetting the verified flag when the chat is reported missing),
while any state written by the topic step is kept. -/
def forwardSendPhase (cfg : TgConfig) (st0 : TgState) (env : Env)
    (msg : TgMessage) (mgmt : String) : TgState × List Effect :=
  let username := msgUsername msg
  let chatId := msg.chatId
  let messageText := jsOrStr msg.text "No text content"
  let gres :=
    if cfg.useTopics then getOrCreateUserTopic cfg st0 env chatId username
    else (none, st0, ([] : List Effect))
  let topicId := gres.1
  let st1 := gres.2.1
  let contextMessage :=
    match topicId with
    | some _ => messageText
    | none => "*" ++ username ++ "*: " ++ messageText
  match env.send mgmt topicId none contextMessage with
  | Except.ok fid =>
      let st2 := { st1 with
        pendingReplies := mset st1.pendingReplies (toString chatId)
          { username := username, originalMessage := messageText,
            forwardedMessageId := fid, topicId := topicId,
            timestamp := env.now },
        forwardedMessageMap :=
          mset st1.forwardedMessageMap (toString fid) (toString chatId) }
      (st2, gres.2.2
        ++ [Effect.send mgmt topicId none contextMessage (Except.ok fid)])
  | Except.error e =>
      let st2 :=
        if jsIncludes e "chat not found" then
          { st1 with managementChatVerified := false }
        else st1
      (st2, gres.2.2
        ++ [Effect.send mgmt topicId none contextMessage (Except.error e)])

/-- Embedding of `forwardToManagement(originalMsg)`: bails out when no
management chat is configured, verifies the management chat if needed, then
runs the forward body.  All platform failures are caught locally. -/
def forwardToManagement (cfg : TgConfig) (st : TgState) (env : Env)
    (msg : TgMessage) : TgState × List Effect :=
  match cfg.managementChatId with
  | none => (st, [])
  | some mgmt =>
      let tres :=
        if st.managementChatVerified then (true, st, ([] : List Effect))
        else testManagementChat cfg st env
      if !tres.1 then (tres.2.1, tres.2.2)
      else
        let fres := forwardSendPhase cfg tres.2.1 env msg mgmt
        (fres.1, tres.2.2 ++ fres.2)

/-! Operator reply resolution (`handleManagementReply`). -/

/-- The guard `msg.reply_to_message && msg.reply_to_message.message_id` of the
reply-to strategy: the id of the replied-to message when present and truthy. -/
def replyIdOf (msg : TgMessage) : Option Nat :=
  truthyN msg.replyToMessageId

/-- Strategy 1 guard of `handleManagementReply`
(`USE_TOPICS && msg.message_thread_id && !msg.reply_to_message`, then the
`topicUsers` lookup): the mapped topic id and target chat of a plain message
typed inside a mapped topic. -/
def branch1Target (cfg : TgConfig) (st : TgState) (msg : TgMessage) :
    Option (Nat × String) :=
  if cfg.useTopics then
    match truthyN msg.messageThreadId, msg.replyToMessageId with
    | some tid, none => (mget st.topicUsers tid).map (fun u => (tid, u))
    | _, _ => none
  else none

/-- Strategy 3 guard (the topic fallback inside the reply-to branch, entered
when the `forwardedMessageMap` lookup failed): the mapped topic id and target
chat of the topic the message was typed in. -/
def fallbackTarget (cfg : TgConfig) (st : TgState) (msg : TgMessage) :
    Option (Nat × String) :=
  if cfg.useTopics then
    match truthyN msg.messageThreadId with
    | some tid => (mget st.topicUsers tid).map (fun u => (tid, u))
    | none => none
  else none

/-- The `pendingReplies.get(x)?.username || 'user'` resolution used by the
confirmation notices (usernames stored by `forwardToManagement` are nonempty,
so plain option defaulting coincides with JavaScript truthiness here). -/
def pendingUsername (st : TgState) (chatKey : String) : String :=
  match mget st.pendingReplies chatKey with
  | some info => info.username
  | none => "user"

/-- Effect trace of the strategy-1 body: send the typed text to the mapped
user, log it, and confirm (or report failure) in the same topic, both notices
tagged as replies to the operator message.  The state is never mutated on
this path. -/
def topicDirectSend (st : TgState) (env : Env) (mgmt : String) (tid : Nat)
    (target text : String) (msgId : Nat) : List Effect :=
  match env.send target none none text with
  | Except.ok sentId =>
      let ctext := "✅ Message sent to " ++ pendingUsername st target ++ "!"
      [Effect.send target none none text (Except.ok sentId),
       Effect.log "telegram" sentId,
       Effect.send mgmt (some tid) (some msgId) ctext
         (env.send mgmt (some tid) (some msgId) ctext)]
  | Except.error e =>
      let ftext := "❌ Failed to send message: " ++ e
      [Effect.send target none none text (Except.error e),
       Effect.send mgmt (some tid) (some msgId) ftext
         (env.send mgmt (some tid) (some msgId) ftext)]

/-- Effect trace of the strategy-2 body (reply to a forwarded message found in
`forwardedMessageMap`): send to the original user, log, and confirm in the
management chat — threaded into the topic of the user when one is recorded
and `USE_TOPICS` is on.  The commented-out cleanup in the source means the
state is not mutated on this path. -/
def replyFoundSend (cfg : TgConfig) (st : TgState) (env : Env) (mgmt : String)
    (originalChatId text : String) (msgId : Nat) : List Effect :=
  match env.send originalChatId none none text with
  | Except.ok sentId =>
      let cthread :=
        match mget st.pendingReplies originalChatId with
        | some info => if cfg.useTopics then truthyN info.topicId else none
        | none => none
      let ctext := "✅ Reply sent to " ++ pendingUsername st originalChatId ++ "!"
      [Effect.send originalChatId none none text (Except.ok sentId),
       Effect.log "telegram" sentId,
       Effect.send mgmt cthread (some msgId) ctext
         (env.send mgmt cthread (some msgId) ctext)]
  | Except.error e =>
      let ftext := "❌ Failed to send reply: " ++ e
      [Effect.send originalChatId none none text (Except.error e),
       Effect.send mgmt none (some msgId) ftext
         (env.send mgmt none (some msgId) ftext)]

/-- Confirmation text of the legacy reply path (it reads the ForwardRecord
before the deletion happens). -/
def legacyConfirmText (st : TgState) (target replyText : String) : String :=
  "✅ Reply sent to " ++ pendingUsername st target ++ ": \"" ++ replyText ++ "\""

/-- Embedding of the legacy `r<digits> <text>` branch of
`handleManagementReply` (strategy 4).  On a fully successful send+confirm the
ForwardRecord of the target is deleted; if the user send or the confirmation
rejects, the `catch` posts a failure notice and the deletion is never
reached. -/
def legacyBranch (st : TgState) (env : Env) (mgmt text : String) :
    Bool × TgState × List Effect :=
  match legacyReplyMatch text with
  | none => (false, st, [])
  | some (target, replyText) =>
      match env.send target none none replyText with
      | Except.ok sentId =>
          let ctext := legacyConfirmText st target replyText
          match env.send mgmt none none ctext with
          | Except.ok cid =>
              (true, { st with pendingReplies := mdel st.pendingReplies target },
                [Effect.send target none none replyText (Except.ok sentId),
                 Effect.log "telegram" sentId,
                 Effect.send mgmt none none ctext (Except.ok cid)])
          | Except.error e2 =>
              let ftext := "❌ Failed to send reply: " ++ e2
              (true, st,
                [Effect.send target none none replyText (Except.ok sentId),
                 Effect.log "telegram" sentId,
                 Effect.send mgmt none none ctext (Except.error e2),
                 Effect.send mgmt none none ftext (env.send mgmt none none ftext)])
      | Except.error e =>
          let ftext := "❌ Failed to send reply: " ++ e
          (true, st,
            [Effect.send target none none replyText (Except.error e),
             Effect.send mgmt none none ftext (env.send mgmt none none ftext)])

/-- Effect trace of the strategy-3 body (topic fallback when the index lookup
failed), successful-send case. -/
def fallbackOkSend (st : TgState) (env : Env) (mgmt : String) (tid : Nat)
    (target text : String) (msgId sentId : Nat) : List Effect :=
  let ctext := "✅ Reply sent to " ++ pendingUsername st target ++ "!"
  [Effect.send target none none text (Except.ok sentId),
   Effect.log "telegram" sentId,
   Effect.send mgmt (some tid) (some msgId) ctext
     (env.send mgmt (some tid) (some msgId) ctext)]

/-- Effect trace of the strategy-3 body, rejected-send case (the `catch`
posts a failure notice; control then falls out of the reply-to branch and
reaches the legacy check). -/
def fallbackErrSend (env : Env) (mgmt : String) (tid : Nat)
    (target text : String) (msgId : Nat) (e : String) : List Effect :=
  let ftext := "❌ Failed to send: " ++ e
  [Effect.send target none none text (Except.error e),
   Effect.send mgmt (some tid) (some msgId) ftext
     (env.send mgmt (some tid) (some msgId) ftext)]

/-- Embedding of `handleManagementReply(msg)`: the ordered strategy ladder.
Returns whether the message was handled, the state after the call, and the
trace. -/
def handleManagementReply (cfg : TgConfig) (st : TgState) (env : Env)
    (msg : TgMessage) : Bool × TgState × List Effect :=
  let text := msg.text.getD ""
  let mgmt := mgmtChatStr cfg
  match branch1Target cfg st msg with
  | some (tid, target) =>
      (true, st, topicDirectSend st env mgmt tid target text msg.messageId)
  | none =>
      match replyIdOf msg with
      | some rid =>
          match mget st.forwardedMessageMap (toString rid) with
          | some originalChatId =>
              (true, st,
                replyFoundSend cfg st env mgmt originalChatId text msg.messageId)
          | none =>
              match fallbackTarget cfg st msg with
              | some (tid, target) =>
                  match env.send target none none text with
                  | Except.ok sentId =>
                      (true, st,
                        fallbackOkSend st env mgmt tid target text msg.messageId sentId)
                  | Except.error e =>
                      let pre := fallbackErrSend env mgmt tid target text msg.messageId e
                      let lres := legacyBranch st env mgmt text
                      (lres.1, lres.2.1, pre ++ lres.2.2)
              | none => legacyBranch st env mgmt text
      | none => legacyBranch st env mgmt text

/-- Text of the `/info` report (timestamp rendered via `toString`; content
abbreviated; it is not load-bearing for routing). -/
def infoText (chatIdStr : String) (info : PendingInfo) : String :=
  "👤 User Info for Chat ID: " ++ chatIdStr ++ " Username: " ++ info.username
    ++ " Last Message: \"" ++ info.originalMessage ++ "\" Received: "
    ++ toString info.timestamp ++ " Reply with: r" ++ chatIdStr

/-- Embedding of `handleInfoCommand(msg)`: reports the pending ForwardRecord
of the queried chat id, or a not-found notice.  The state is never mutated. -/
def handleInfoCommand (st : TgState) (env : Env) (mgmt : String)
    (msg : TgMessage) : Bool × List Effect :=
  match infoMatch (msg.text.getD "") with
  | some chatIdStr =>
      match mget st.pendingReplies chatIdStr with
      | some info =>
          let t := infoText chatIdStr info
          (true, [Effect.send mgmt none none t (env.send mgmt none none t)])
      | none =>
          let t := "❌ No pending conversation found for chat ID: " ++ chatIdStr
          (true, [Effect.send mgmt none none t (env.send mgmt none none t)])
  | none => (false, [])

/-! The management-chat command ladder and the top-level message handler. -/

/-- Text of the `/topics` listing when no topic exists yet: the help header
plus the recent users enumerated from `pendingReplies` (content abbreviated;
it is not load-bearing for routing). -/
def topicsEmptyText (st : TgState) : String :=
  let recentUsers := st.pendingReplies.foldl
    (fun acc p => acc ++ "\n• " ++ p.2.username ++ " (" ++ p.1 ++ ")") ""
  "📝 No user topics created yet. Recent users to create topics for:"
    ++ (if recentUsers = "" then "\n• No recent users" else recentUsers)

/-- Text of the `/topics` listing when topics exist, enumerated from
`userTopics` with usernames resolved through `pendingReplies`. -/
def topicsListText (st : TgState) : String :=
  let listText := st.userTopics.foldl
    (fun acc p => acc ++ "• " ++ pendingUsername st p.1 ++ " (" ++ p.1
      ++ ") - Topic ID: " ++ toString p.2 ++ "\n")
    "🧵 Active User Topics:\n\n"
  listText ++ "\nClick on any topic in the group to view that conversation!"

/-- Confirmation text of a manual `/link_topic` (content abbreviated). -/
def linkConfirmText (chatIdStr : String) (topicId : Nat) : String :=
  "✅ Topic linked successfully! User Chat ID: " ++ chatIdStr
    ++ " Topic ID: " ++ toString topicId

/-- Static help text of the management chat (content abbreviated; it is not
load-bearing for routing). -/
def mgmtHelpText (useTopics : Bool) : String :=
  "🔧 Management " ++ (if useTopics then "Group" else "Chat") ++ " Commands"

/-- The state mutation of the `/link_topic` handler: forcibly insert the pair
into both mapping tables (no validation, no cleanup of previous bindings). -/
def applyLinkTopic (st : TgState) (chatIdStr : String) (topicId : Nat) : TgState :=
  { st with
    userTopics := mset st.userTopics chatIdStr topicId,
    topicUsers := mset st.topicUsers topicId chatIdStr }

/-- Tail of the management command ladder after `/link_topic` failed to match
(or topics are off): the `/help` check, then the final bare `return`. -/
def mgmtHelpCheck (st : TgState) (env : Env) (mgmt : String) (useTopics : Bool)
    (msg : TgMessage) : TgState × List Effect :=
  if msg.text = some "/help" || msg.text = some "help" then
    let t := mgmtHelpText useTopics
    (st, [Effect.send mgmt none none t (env.send mgmt none none t)])
  else (st, [])

/-- Embedding of the management-account branch of the `bot.on('message')`
handler: the reply ladder, then `/info`, `/test`, `/topics`, `/link_topic`
and `/help`, in source order.  These messages are never logged. -/
def handleMgmtBranch (cfg : TgConfig) (st : TgState) (env : Env)
    (msg : TgMessage) : TgState × List Effect :=
  let mgmt := mgmtChatStr cfg
  let rres := handleManagementReply cfg st env msg
  if rres.1 then (rres.2.1, rres.2.2)
  else
    let st1 := rres.2.1
    let e1 := rres.2.2
    let ires := handleInfoCommand st1 env mgmt msg
    if ires.1 then (st1, e1 ++ ires.2)
    else
      let e2 := e1 ++ ires.2
      if msg.text = some "/test" then
        let t := "✅ Management chat connection is working! Bot is ready to forward messages."
        (st1, e2 ++ [Effect.send mgmt none none t (env.send mgmt none none t)])
      else if msg.text = some "/topics" && cfg.useTopics then
        if st1.userTopics.length = 0 then
          let t := topicsEmptyText st1
          (st1, e2 ++ [Effect.send mgmt none none t (env.send mgmt none none t)])
        else
          let t := topicsListText st1
          (st1, e2 ++ [Effect.send mgmt none none t (env.send mgmt none none t)])
      else
        match linkTopicMatch (msg.text.getD "") with
        | some (chatIdStr, topicId) =>
            if cfg.useTopics then
              let st2 := applyLinkTopic st1 chatIdStr topicId
              let t := linkConfirmText chatIdStr topicId
              (st2, e2 ++ [Effect.send mgmt none none t (env.send mgmt none none t)])
            else mgmtHelpCheck st1 env mgmt cfg.useTopics msg
        | none => mgmtHelpCheck st1 env mgmt cfg.useTopics msg

/-- Embedding of `setupManagementChatId(msg)`: in self-setup mode the inbound
message only triggers the setup notice into its own chat (failures are
swallowed); no state is touched and nothing is logged. -/
def setupManagementChatId (env : Env) (msg : TgMessage) : List Effect :=
  if msgIsBot msg then []
  else
    let isGroup := msg.chatType = "group" || msg.chatType = "supergroup"
    let t := setupText isGroup (toString msg.chatId)
    [Effect.send (toString msg.chatId) none none t
      (env.send (toString msg.chatId) none none t)]

/-- Embedding of the `bot.on('message')` handler: self-setup mode when
`MANAGEMENT_CHAT_ID` is unset, the management-account branch for operator
messages, and the log-then-forward path for messages from external users. -/
def onMessage (cfg : TgConfig) (st : TgState) (env : Env) (msg : TgMessage) :
    TgState × List Effect :=
  let isBot := msgIsBot msg
  match cfg.managementChatId with
  | none =>
      if !isBot then (st, setupManagementChatId env msg)
      else (st, [])
  | some mgmt =>
      if toString msg.chatId = mgmt && !isBot then
        handleMgmtBranch cfg st env msg
      else if !isBot && toString msg.chatId ≠ mgmt then
        let fres := forwardToManagement cfg st env msg
        (fres.1, Effect.log "telegram" msg.messageId :: fres.2)
      else (st, [])

/-! Discord data model (`backend/discord.js`):
`getOrCreateUserThread`, the unit-lifecycle function the stale-mapping
eviction claim refers to. -/

/-- The mutable thread-mapping state of the Discord bot (Discord ids are
snowflake strings). -/
structure DcState where
  userThreads : List (String × String)
  threadUsers : List (String × String)
deriving DecidableEq

/-- Discord platform oracle.  `fetchChannel` models
`guild.channels.fetch(threadId)`: `Except.ok true` is a resolved channel,
`Except.ok false` a resolution to `null`, `Except.error` a rejection (the
behaviour of discord.js for a deleted thread).  `createThread` models the
management-channel fetch plus `channel.threads.create` and yields the new
thread id; `threadSend` models `thread.send`. -/
structure DcEnv where
  fetchChannel : String → Except String Bool
  createThread : String → Except String String
  threadSend : String → String → Except String Nat

/-- Trace of the platform interactions of `getOrCreateUserThread`. -/
inductive DcEffect where
  | fetchChannel (threadId : String) (result : Except String Bool)
  | createThread (name : String) (result : Except String String)
  | threadSend (threadId : String) (text : String) (result : Except String Nat)
deriving DecidableEq

/-- Welcome notice posted into a freshly created Discord thread
(content abbreviated). -/
def dcWelcomeText (username userId : String) : String :=
  "🎉 New conversation started. User: " ++ username ++ " User ID: " ++ userId

/-- The creation half of `getOrCreateUserThread`: create the thread, insert
the pair into both tables, then send the welcome notice (whose rejection is
caught after the tables were already written, returning `null`). -/
def dcCreateThreadStep (st : DcState) (env : DcEnv) (userKey username : String)
    (pre : List DcEffect) : Option String × DcState × List DcEffect :=
  let threadName := "💬 " ++ username ++ " (" ++ userKey ++ ")"
  match env.createThread threadName with
  | Except.ok tid =>
      let st1 := { st with
        userThreads := mset st.userThreads userKey tid,
        threadUsers := mset st.threadUsers tid userKey }
      let wt := dcWelcomeText username userKey
      match env.threadSend tid wt with
      | Except.ok mid =>
          (some tid, st1,
            pre ++ [DcEffect.createThread threadName (Except.ok tid),
              DcEffect.threadSend tid wt (Except.ok mid)])
      | Except.error e =>
          (none, st1,
            pre ++ [DcEffect.createThread threadName (Except.ok tid),
              DcEffect.threadSend tid wt (Except.error e)])
  | Except.error e =>
      (none, st, pre ++ [DcEffect.createThread threadName (Except.error e)])

/-- Embedding of `getOrCreateUserThread(userId, username)`: on a cached
mapping the thread is first fetched from the platform; a resolved channel is
returned as-is, while a rejection evicts both directions of the mapping
before proceeding to creation. -/
def getOrCreateUserThread (useThreads : Bool) (st : DcState) (env : DcEnv)
    (userId username : String) : Option String × DcState × List DcEffect :=
  if !useThreads then (none, st, [])
  else
    let userKey := userId
    match mget st.userThreads userKey with
    | some threadId =>
        match env.fetchChannel threadId with
        | Except.ok true =>
            (some threadId, st, [DcEffect.fetchChannel threadId (Except.ok true)])
        | Except.ok false =>
            dcCreateThreadStep st env userKey username
              [DcEffect.fetchChannel threadId (Except.ok false)]
        | Except.error e =>
            let st1 := { st with
              userThreads := mdel st.userThreads userKey,
              threadUsers := mdel st.threadUsers threadId }
            dcCreateThreadStep st1 env userKey username
              [DcEffect.fetchChannel threadId (Except.error e)]
    | none => dcCreateThreadStep st env userKey username []

/-! Bidirectional agreement of a forward/reverse mapping pair. -/

/-- Bidirectional agreement of a forward table and its reverse table: every
binding of either is mirrored by the other. -/
def MapConsistent {α β : Type} [DecidableEq α] [DecidableEq β]
    (f : List (α × β)) (r : List (β × α)) : Prop :=
  (∀ a b, mget f a = some b → mget r b = some a) ∧
  (∀ b a, mget r b = some a → mget f a = some b)

/-- The spec invariant for the Telegram topic tables: `userTopics` and
`topicUsers` agree bidirectionally. -/
def ConsistentT (st : TgState) : Prop :=
  MapConsistent st.userTopics st.topicUsers

/-- The spec invariant for the Discord thread tables. -/
def ConsistentD (st : DcState) : Prop :=
  MapConsistent st.userThreads st.threadUsers

/-! Concrete fixtures used by the witnesses and counterexamples. -/

/-- Configuration with topics on and management chat `100`. -/
def cfgT : TgConfig := { managementChatId := some "100", useTopics := true }

/-- Configuration with topics off and management chat `100`. -/
def cfgF : TgConfig := { managementChatId := some "100", useTopics := false }

/-- Configuration with no management chat (self-setup mode). -/
def cfgN : TgConfig := { managementChatId := none, useTopics := false }

/-- Oracle where every platform call succeeds. -/
def envA : Env :=
  { send := fun _ _ _ _ => Except.ok 41, createTopic := fun _ _ => Except.ok 77, now := 5 }

/-- Oracle where every platform call is rejected ("dead platform"). -/
def envDead : Env :=
  { send := fun _ _ _ _ => Except.error "chat not found",
    createTopic := fun _ _ => Except.error "not found", now := 5 }

/-- Oracle whose topic creation is rejected with a permission error. -/
def envPerm : Env :=
  { send := fun _ _ _ _ => Except.ok 42,
    createTopic := fun _ _ => Except.error "not enough rights", now := 5 }

/-- The state at process start (verification already performed). -/
def emptySt : TgState :=
  { pendingReplies := [], forwardedMessageMap := [], userTopics := [],
    topicUsers := [], managementChatVerified := true }

/-- A state with the single established mapping `5 ↔ topic 77`. -/
def stPair : TgState :=
  { pendingReplies := [], forwardedMessageMap := [], userTopics := [("5", 77)],
    topicUsers := [(77, "5")], managementChatVerified := true }

/-- An inbound message from external user 789. -/
def userMsg : TgMessage :=
  { messageId := 9, chatId := 789, chatType := "private",
    sender := some { username := some "alice", firstName := none, isBot := false },
    text := some "hi", messageThreadId := none, replyToMessageId := none }

/-- Fixture for the C5 witness: mapping `topic 71 → user 456`. -/
def stT5 : TgState :=
  { pendingReplies := [], forwardedMessageMap := [], userTopics := [("456", 71)],
    topicUsers := [(71, "456")], managementChatVerified := true }

/-- Fixture for the C5 witness: plain operator text typed in topic 71. -/
def msgT5 : TgMessage :=
  { messageId := 21, chatId := 100, chatType := "supergroup",
    sender := some { username := some "op", firstName := none, isBot := false },
    text := some "hello", messageThreadId := some 71, replyToMessageId := none }

/-- Fixture for the C6 witness: the literal legacy message in the main chat. -/
def msgR6 : TgMessage :=
  { messageId := 23, chatId := 100, chatType := "supergroup",
    sender := some { username := some "op", firstName := none, isBot := false },
    text := some "r123 hello there", messageThreadId := none,
    replyToMessageId := none }

/-- Fixture for the C4 witness: the index state produced by the forward. -/
def stMap4 : TgState :=
  { pendingReplies := [], forwardedMessageMap := [("41", "789")],
    userTopics := [], topicUsers := [], managementChatVerified := true }

/-- Fixture for the C4 witness: an operator reply-to forwarded message 41,
typed inside some unrelated thread surface. -/
def msgRep4 : TgMessage :=
  { messageId := 30, chatId := 100, chatType := "supergroup",
    sender := some { username := some "op", firstName := none, isBot := false },
    text := some "welcome!", messageThreadId := some 999,
    replyToMessageId := some 41 }

/-- An operator message manually linking chat 6 to the already-bound
topic 77. -/
def linkMsg : TgMessage :=
  { messageId := 11, chatId := 100, chatType := "supergroup",
    sender := some { username := some "op", firstName := none, isBot := false },
    text := some "/link_topic 6 77", messageThreadId := none,
    replyToMessageId := none }

/-- Fixture for the C1 witness: a Discord oracle whose fetch always rejects
and whose creation always yields thread `T2`. -/
def denvW : DcEnv :=
  { fetchChannel := fun _ => Except.error "Unknown Channel",
    createThread := fun _ => Except.ok "T2",
    threadSend := fun _ _ => Except.ok 1 }

/-- Fixture for the C1 witness: an established Discord mapping `9 ↔ T1`. -/
def stdPair : DcState :=
  { userThreads := [("9", "T1")], threadUsers := [("T1", "9")] }

/-! C2 — behaviour after a failed unit creation. -/

/-- Does a trace contain a create-unit platform call. -/
def hasCreateTopicCall (effs : List Effect) : Bool :=
  effs.any fun e =>
    match e with
    | Effect.createTopic _ _ _ => true
    | _ => false

/-! C3 — liveness verification of cached mappings. -/

/-- Does a Discord trace contain a create-thread platform call. -/
def hasDcCreateCall (effs : List DcEffect) : Bool :=
  effs.any fun e =>
    match e with
    | DcEffect.createThread _ _ => true
    | _ => false

/-- Fixture for the C3 witness: a Discord oracle whose fetch resolves the
cached thread. -/
def denvLive : DcEnv :=
  { fetchChannel := fun _ => Except.ok true,
    createThread := fun _ => Except.ok "T2",
    threadSend := fun _ _ => Except.ok 1 }

/-! C8 — persistence record in self-setup mode. -/

/-- Is an effect a persistence-collaborator record call. -/
def isLogEffect (e : Effect) : Bool :=
  match e with
  | Effect.log _ _ => true
  | _ => false

/-- Fixture for the C10 witness: a state holding a ForwardRecord for user
123, the index entry `41 → 789`, and the unit mapping `456 ↔ topic 71`. -/
def stP10 : TgState :=
  { pendingReplies := [("123",
      { username := "bob", originalMessage := "hi", forwardedMessageId := 40,
        topicId := none, timestamp := 1 })],
    forwardedMessageMap := [("41", "789")],
    userTopics := [("456", 71)], topicUsers := [(71, "456")],
    managementChatVerified := true }

/-- Fixture for the C10 witness: the follow-up `/info 123` query. -/
def msgI10 : TgMessage :=
  { messageId := 31, chatId := 100, chatType := "supergroup",
    sender := some { username := some "op", firstName := none, isBot := false },
    text := some "/info 123", messageThreadId := none, replyToMessageId := none }

theorem mget_mset_self {α β : Type} [DecidableEq α] (m : List (α × β)) (k : α) (v : β) :
    mget (mset m k v) k = some v := by
  induction m with
  | nil => simp [mset, mget]
  | cons p rest ih =>
      obtain ⟨k', v'⟩ := p
      by_cases h : k' = k
      · simp [mset, mget, h]
      · simp [mset, mget, h, ih]

theorem mget_mset_of_ne {α β : Type} [DecidableEq α] (m : List (α × β)) (k k' : α) (v : β)
    (h : k' ≠ k) : mget (mset m k v) k' = mget m k' := by
  induction m with
  | nil =>
      have h2 : ¬ k = k' := fun hh => h hh.symm
      simp [mset, mget, h2]
  | cons p rest ih =>
      obtain ⟨k₀, v₀⟩ := p
      by_cases h0 : k₀ = k
      · subst h0
        have h2 : ¬ k₀ = k' := fun hh => h hh.symm
        simp [mset, mget, h2, h]
      · by_cases h1 : k₀ = k'
        · simp [mset, mget, h0, h1, h]
        · simp [mset, mget, h0, h1, h, ih]

theorem mget_mdel {α β : Type} [DecidableEq α] (m : List (α × β)) (k k' : α) :
    mget (mdel m k) k' = if k' = k then none else mget m k' := by
  induction m with
  | nil => simp [mdel, mget]
  | cons p rest ih =>
      obtain ⟨k₀, v₀⟩ := p
      by_cases h0 : k₀ = k
      · subst h0
        by_cases h1 : k' = k₀
        · subst h1
          simp [mdel, mget, ih]
        · have h2 : ¬ k₀ = k' := fun hh => h1 hh.symm
          simp [mdel, mget, ih, h1, h2]
      · by_cases h1 : k₀ = k'
        · subst h1
          simp [mdel, mget, h0]
        · simp [mdel, mget, h0, h1, ih]

theorem mget_mdel_self {α β : Type} [DecidableEq α] (m : List (α × β)) (k : α) :
    mget (mdel m k) k = none := by
  simp [mget_mdel]

theorem mget_mdel_of_ne {α β : Type} [DecidableEq α] (m : List (α × β)) (k k' : α)
    (h : k' ≠ k) : mget (mdel m k) k' = mget m k' := by
  simp [mget_mdel, h]

theorem mapConsistent_insert {α β : Type} [DecidableEq α] [DecidableEq β]
    {f : List (α × β)} {r : List (β × α)} (hc : MapConsistent f r) {a : α} {b : β}
    (ha : mget f a = none) (hb : mget r b = none) :
    MapConsistent (mset f a b) (mset r b a) := by
  constructor
  · intro x y hx
    by_cases hxa : x = a
    · subst hxa
      rw [mget_mset_self] at hx
      cases hx
      exact mget_mset_self r b x
    · rw [mget_mset_of_ne f a x b hxa] at hx
      have hmirror := hc.1 x y hx
      have hyb : y ≠ b := by
        intro hh
        subst hh
        rw [hmirror] at hb
        cases hb
      rw [mget_mset_of_ne r b y a hyb]
      exact hmirror
  · intro y x hy
    by_cases hyb : y = b
    · subst hyb
      rw [mget_mset_self] at hy
      cases hy
      exact mget_mset_self f a y
    · rw [mget_mset_of_ne r b y a hyb] at hy
      have hmirror := hc.2 y x hy
      have hxa : x ≠ a := by
        intro hh
        subst hh
        rw [hmirror] at ha
        cases ha
      rw [mget_mset_of_ne f a x b hxa]
      exact hmirror

theorem mapConsistent_del {α β : Type} [DecidableEq α] [DecidableEq β]
    {f : List (α × β)} {r : List (β × α)} (hc : MapConsistent f r) {a : α} {b : β}
    (hab : mget f a = some b) :
    MapConsistent (mdel f a) (mdel r b) := by
  constructor
  · intro x y hx
    by_cases hxa : x = a
    · subst hxa
      rw [mget_mdel_self] at hx
      cases hx
    · rw [mget_mdel_of_ne f a x hxa] at hx
      have hmirror := hc.1 x y hx
      have hyb : y ≠ b := by
        intro hh
        subst hh
        have h2 := hc.1 a y hab
        rw [hmirror] at h2
        cases h2
        exact hxa rfl
      rw [mget_mdel_of_ne r b y hyb]
      exact hmirror
  · intro y x hy
    by_cases hyb : y = b
    · subst hyb
      rw [mget_mdel_self] at hy
      cases hy
    · rw [mget_mdel_of_ne r b y hyb] at hy
      have hmirror := hc.2 y x hy
      have hxa : x ≠ a := by
        intro hh
        subst hh
        rw [hmirror] at hab
        cases hab
        exact hyb rfl
      rw [mget_mdel_of_ne f a x hxa]
      exact hmirror

/-- A message that is a reply to something never takes strategy 1: the
`!msg.reply_to_message` conjunct fails. -/
theorem branch1Target_eq_none_of_reply (cfg : TgConfig) (st : TgState)
    (msg : TgMessage) (r : Nat) (h : replyIdOf msg = some r) :
    branch1Target cfg st msg = none := by
  unfold branch1Target
  cases hrep : msg.replyToMessageId with
  | none =>
      unfold replyIdOf truthyN at h
      rw [hrep] at h
      cases h
  | some n =>
      cases hu : cfg.useTopics
      · simp
      · cases ht : truthyN msg.messageThreadId <;> simp [ht, hrep]

/-! C5 — unit-mode direct-type correctness. -/

/-- C5: with unit mode on and `topicUsers` mapping the topic the operator is
typing in to a user, a non-reply plain message resolves to that user via the
unit mapping, leaving the state unchanged: the very first action of the
handler is the send to the mapped user, so the strategy runs before any
`forwardedMessageMap` lookup (the statement holds for every state, hence for
every content of the reply-to index). -/
theorem claim5_theorem (cfg : TgConfig) (st : TgState) (env : Env)
    (msg : TgMessage) (tid : Nat) (u : String)
    (huse : cfg.useTopics = true)
    (hthread : truthyN msg.messageThreadId = some tid)
    (hreply : msg.replyToMessageId = none)
    (hmap : mget st.topicUsers tid = some u) :
    (handleManagementReply cfg st env msg).1 = true ∧
    (handleManagementReply cfg st env msg).2.1 = st ∧
    (handleManagementReply cfg st env msg).2.2.head? =
      some (Effect.send u none none (msg.text.getD "")
        (env.send u none none (msg.text.getD ""))) := by
  have hb1 : branch1Target cfg st msg = some (tid, u) := by
    unfold branch1Target
    rw [huse, hthread, hreply]
    simp [hmap]
  unfold handleManagementReply
  rw [hb1]
  refine ⟨rfl, rfl, ?_⟩
  unfold topicDirectSend
  cases hs : env.send u none none (msg.text.getD "") <;> simp [hs]

/-- Witness for C5 at a concrete topic message. -/
theorem claim5_witness :
    (handleManagementReply cfgT stT5 envA msgT5).1 = true ∧
    (handleManagementReply cfgT stT5 envA msgT5).2.1 = stT5 ∧
    (handleManagementReply cfgT stT5 envA msgT5).2.2.head? =
      some (Effect.send "456" none none "hello"
        (envA.send "456" none none "hello")) :=
  claim5_theorem cfgT stT5 envA msgT5 71 "456" rfl rfl rfl rfl

/-- The legacy branch on a matching text is handled and its first action is
the send of the stripped body to the embedded raw identity. -/
theorem legacyBranch_spec (st : TgState) (env : Env) (mgmt text target replyText : String)
    (h : legacyReplyMatch text = some (target, replyText)) :
    (legacyBranch st env mgmt text).1 = true ∧
    (legacyBranch st env mgmt text).2.2.head? =
      some (Effect.send target none none replyText
        (env.send target none none replyText)) := by
  unfold legacyBranch
  rw [h]
  cases hs : env.send target none none replyText with
  | ok sentId =>
      cases hc : env.send mgmt none none (legacyConfirmText st target replyText)
        <;> simp [hs, hc]
  | error e => simp [hs]

/-! C6 — legacy-pattern addressing. -/

/-- C6: an operator message whose text is literally `r123 hello there`, with
no reply-to relation and no mapped unit context, is handled by the legacy
branch: the addressing prefix is stripped and the send targets raw identity
`123` with body `hello there`. -/
theorem claim6_theorem (cfg : TgConfig) (st : TgState) (env : Env)
    (msg : TgMessage)
    (htext : msg.text = some "r123 hello there")
    (hreply : msg.replyToMessageId = none)
    (hnotopic : ∀ tid, truthyN msg.messageThreadId = some tid →
      mget st.topicUsers tid = none) :
    (handleManagementReply cfg st env msg).1 = true ∧
    (handleManagementReply cfg st env msg).2.2.head? =
      some (Effect.send "123" none none "hello there"
        (env.send "123" none none "hello there")) := by
  have hb1 : branch1Target cfg st msg = none := by
    unfold branch1Target
    cases hu : cfg.useTopics
    · simp
    · cases ht : truthyN msg.messageThreadId with
      | none => simp [hreply]
      | some tid => simp [hreply, hnotopic tid ht]
  have hrid : replyIdOf msg = none := by
    unfold replyIdOf
    rw [hreply]
    rfl
  have hlm : legacyReplyMatch "r123 hello there" = some ("123", "hello there") := by
    decide
  have hleg := legacyBranch_spec st env (mgmtChatStr cfg) "r123 hello there"
    "123" "hello there" hlm
  unfold handleManagementReply
  rw [hb1, hrid, htext]
  exact ⟨hleg.1, hleg.2⟩

/-- Witness for C6 at the concrete legacy message. -/
theorem claim6_witness :
    (handleManagementReply cfgF emptySt envA msgR6).1 = true ∧
    (handleManagementReply cfgF emptySt envA msgR6).2.2.head? =
      some (Effect.send "123" none none "hello there"
        (envA.send "123" none none "hello there")) :=
  claim6_theorem cfgF emptySt envA msgR6 rfl rfl (fun _ h => Option.noConfusion h)

/-! C7 — logging happens before and independently of forwarding. -/

/-- C7: for every inbound external-user message with the management surface
configured, the persistence record is the first effect of the handler, before
any forwarding interaction, and this holds for every oracle — in particular
when every platform send is rejected, so a send failure during forwarding can
neither prevent nor undo the durable log. -/
theorem claim7_theorem (cfg : TgConfig) (st : TgState) (env : Env)
    (msg : TgMessage) (mgmt : String)
    (hm : cfg.managementChatId = some mgmt)
    (hbot : msgIsBot msg = false)
    (hchat : toString msg.chatId ≠ mgmt) :
    ∃ rest, (onMessage cfg st env msg).2 =
      Effect.log "telegram" msg.messageId :: rest := by
  unfold onMessage
  rw [hm, hbot]
  simp [hchat]

/-- Witness for C7: the inbound message is logged first even on a dead
platform (every send rejected). -/
theorem claim7_witness :
    ∃ rest, (onMessage cfgF emptySt envDead userMsg).2 =
      Effect.log "telegram" userMsg.messageId :: rest :=
  claim7_theorem cfgF emptySt envDead userMsg "100" rfl rfl (by decide)

/-! C4 — reply resolution through the forwarded-message index. -/

/-- C4: forwarding an inbound message (no-unit mode, verified management
chat, successful send returning id `F`) inserts `F → originating chat` into
`forwardedMessageMap` and overwrites the ForwardRecord with
`forwardedMessageId = F`; and for any state whose index maps `F` to a target
`u`, an operator message that is a reply-to `F` resolves to `u` — whatever
surface it was typed in (no assumption on its `message_thread_id`), since a
reply never takes the unit strategy. -/
theorem claim4_theorem (cfg : TgConfig) (st : TgState) (env : Env)
    (msg : TgMessage) (mgmt : String) (F : Nat)
    (hm : cfg.managementChatId = some mgmt)
    (htop : cfg.useTopics = false)
    (hver : st.managementChatVerified = true)
    (hsend : env.send mgmt none none
      ("*" ++ msgUsername msg ++ "*: " ++ jsOrStr msg.text "No text content")
      = Except.ok F)
    (cfg2 : TgConfig) (st2 : TgState) (env2 : Env) (msg2 : TgMessage) (u : String)
    (hmap : mget st2.forwardedMessageMap (toString F) = some u)
    (hrid : replyIdOf msg2 = some F) :
    mget (forwardToManagement cfg st env msg).1.forwardedMessageMap
      (toString F) = some (toString msg.chatId) ∧
    mget (forwardToManagement cfg st env msg).1.pendingReplies
      (toString msg.chatId) = some
        { username := msgUsername msg,
          originalMessage := jsOrStr msg.text "No text content",
          forwardedMessageId := F, topicId := none, timestamp := env.now } ∧
    (handleManagementReply cfg2 st2 env2 msg2).1 = true ∧
    (handleManagementReply cfg2 st2 env2 msg2).2.2.head? =
      some (Effect.send u none none (msg2.text.getD "")
        (env2.send u none none (msg2.text.getD ""))) := by
  have hfwd : (forwardToManagement cfg st env msg).1 =
      { st with
        pendingReplies := mset st.pendingReplies (toString msg.chatId)
          { username := msgUsername msg,
            originalMessage := jsOrStr msg.text "No text content",
            forwardedMessageId := F, topicId := none, timestamp := env.now },
        forwardedMessageMap :=
          mset st.forwardedMessageMap (toString F) (toString msg.chatId) } := by
    unfold forwardToManagement
    rw [hm]
    simp only [hver, Bool.false_eq_true, if_true, if_false, ite_true,
      ite_false, Bool.not_true, Bool.not_false]
    unfold forwardSendPhase
    simp only [htop, Bool.false_eq_true, if_false, ite_false]
    rw [hsend, hver]
  refine ⟨?_, ?_, ?_⟩
  · rw [hfwd]
    exact mget_mset_self _ _ _
  · rw [hfwd]
    exact mget_mset_self _ _ _
  · have hb1 := branch1Target_eq_none_of_reply cfg2 st2 msg2 F hrid
    unfold handleManagementReply
    rw [hb1, hrid]
    dsimp only
    rw [hmap]
    refine ⟨rfl, ?_⟩
    unfold replyFoundSend
    cases hs : env2.send u none none (msg2.text.getD "") <;> simp [hs]

/-- Witness for C4 at a concrete forward followed by a concrete reply. -/
theorem claim4_witness :
    mget (forwardToManagement cfgF emptySt envA userMsg).1.forwardedMessageMap
      (toString 41) = some (toString userMsg.chatId) ∧
    mget (forwardToManagement cfgF emptySt envA userMsg).1.pendingReplies
      (toString userMsg.chatId) = some
        { username := msgUsername userMsg,
          originalMessage := jsOrStr userMsg.text "No text content",
          forwardedMessageId := 41, topicId := none, timestamp := envA.now } ∧
    (handleManagementReply cfgF stMap4 envA msgRep4).1 = true ∧
    (handleManagementReply cfgF stMap4 envA msgRep4).2.2.head? =
      some (Effect.send "789" none none (msgRep4.text.getD "")
        (envA.send "789" none none (msgRep4.text.getD ""))) :=
  claim4_theorem cfgF emptySt envA userMsg "100" 41 rfl rfl rfl rfl
    cfgF stMap4 envA msgRep4 "789" rfl rfl

/-! Facts about the regex matchers needed for the legacy-reply claims. -/

theorem all_takeWhile {α : Type} (p : α → Bool) (l : List α) :
    (l.takeWhile p).all p = true := by
  induction l with
  | nil => rfl
  | cons c rest ih =>
      rw [List.takeWhile_cons]
      cases hp : p c
      · rfl
      · simp [hp, ih]

theorem jsDigit_not_ws (c : Char) (h : jsDigit c = true) :
    jsWhitespaceChar c = false := by
  unfold jsDigit at h
  unfold jsWhitespaceChar
  simp only [Bool.and_eq_true, decide_eq_true_eq] at h
  simp only [Bool.or_eq_false_iff, decide_eq_false_iff_not]
  omega

/-- A successful legacy-pattern match captures a nonempty digit string as the
raw identity. -/
theorem legacyReplyMatch_digits (s t b : String)
    (h : legacyReplyMatch s = some (t, b)) :
    t.data ≠ [] ∧ t.data.all jsDigit = true := by
  unfold legacyReplyMatch legacyReplyMatchAux at h
  cases hd : s.data with
  | nil => rw [hd] at h; cases h
  | cons c rest =>
      rw [hd] at h
      dsimp only at h
      by_cases hc : c = 'r'
      · rw [if_pos hc] at h
        by_cases hds : rest.takeWhile jsDigit = []
        · rw [if_pos hds] at h
          cases h
        · rw [if_neg hds] at h
          by_cases hws : ((rest.dropWhile jsDigit).takeWhile jsWhitespaceChar) = []
          · rw [if_pos hws] at h
            cases h
          · rw [if_neg hws] at h
            by_cases hbody : ((rest.dropWhile jsDigit).dropWhile jsWhitespaceChar) ≠ []
            · rw [if_pos hbody] at h
              by_cases hterm : ((rest.dropWhile jsDigit).dropWhile jsWhitespaceChar).all
                  (fun c => !jsLineTerminator c) = true
              · rw [if_pos hterm] at h
                injection h with h1
                injection h1 with h2 h3
                subst h2
                exact ⟨hds, all_takeWhile jsDigit rest⟩
              · rw [if_neg hterm] at h
                cases h
            · rw [if_neg hbody] at h
              cases hl : ((rest.dropWhile jsDigit).takeWhile jsWhitespaceChar).getLast? with
              | none => rw [hl] at h; cases h
              | some w =>
                  rw [hl] at h
                  dsimp only at h
                  by_cases hg : (2 ≤ ((rest.dropWhile jsDigit).takeWhile jsWhitespaceChar).length
                      && !jsLineTerminator w) = true
                  · rw [if_pos hg] at h
                    injection h with h1
                    injection h1 with h2 h3
                    subst h2
                    exact ⟨hds, all_takeWhile jsDigit rest⟩
                  · rw [if_neg hg] at h
                    cases h
      · rw [if_neg hc] at h
        cases h

/-- Computation rule of `infoMatchAux` on a text starting with `/info`. -/
theorem infoMatchAux_cons (rest : List Char) :
    infoMatchAux ('/' :: 'i' :: 'n' :: 'f' :: 'o' :: rest) =
      (if (rest.takeWhile jsWhitespaceChar) ≠ [] && (rest.dropWhile jsWhitespaceChar) ≠ []
          && (rest.dropWhile jsWhitespaceChar).all jsDigit then
        some (String.mk (rest.dropWhile jsWhitespaceChar))
      else none) := rfl

/-- The `/info` regex accepts `/info <digits>` and captures the digits. -/
theorem infoMatch_of_digits (t : String) (hne : t.data ≠ [])
    (hdig : t.data.all jsDigit = true) :
    infoMatch ("/info " ++ t) = some t := by
  obtain ⟨l⟩ := t
  have hne' : l ≠ [] := hne
  have hdig' : l.all jsDigit = true := hdig
  have hdata : (("/info " ++ String.mk l)).data
      = '/' :: 'i' :: 'n' :: 'f' :: 'o' :: ' ' :: l := rfl
  unfold infoMatch
  rw [hdata, infoMatchAux_cons]
  have hlnil : l.takeWhile jsWhitespaceChar = [] ∧ l.dropWhile jsWhitespaceChar = l := by
    cases hl : l with
    | nil => exact ⟨rfl, rfl⟩
    | cons c rest =>
        have hcd : jsDigit c = true := by
          rw [hl] at hdig'
          simp only [List.all_cons, Bool.and_eq_true] at hdig'
          exact hdig'.1
        have hcw := jsDigit_not_ws c hcd
        constructor
        · rw [List.takeWhile_cons, hcw]
          simp
        · rw [List.dropWhile_cons, hcw]
          simp
  have hws : (' ' :: l).takeWhile jsWhitespaceChar = [' '] := by
    rw [List.takeWhile_cons]
    have hsp : jsWhitespaceChar ' ' = true := rfl
    rw [hsp, hlnil.1]
    simp
  have hdrop : (' ' :: l).dropWhile jsWhitespaceChar = l := by
    rw [List.dropWhile_cons]
    have hsp : jsWhitespaceChar ' ' = true := rfl
    rw [hsp, hlnil.2]
    simp
  rw [hws, hdrop]
  simp [hne', hdig']

/-! C1 — bidirectional mapping consistency. -/

theorem mapConsistent_nil {α β : Type} [DecidableEq α] [DecidableEq β] :
    MapConsistent ([] : List (α × β)) ([] : List (β × α)) := by
  constructor
  · intro a b h
    simp [mget] at h
  · intro b a h
    simp [mget] at h

theorem mapConsistent_single {α β : Type} [DecidableEq α] [DecidableEq β]
    (a : α) (b : β) : MapConsistent [(a, b)] [(b, a)] := by
  constructor
  · intro x y h
    by_cases hax : a = x
    · subst hax
      simp [mget] at h
      subst h
      simp [mget]
    · simp [mget, hax] at h
  · intro y x h
    by_cases hby : b = y
    · subst hby
      simp [mget] at h
      subst h
      simp [mget]
    · simp [mget, hby] at h

/-- The creation half of the Discord unit lifecycle preserves bidirectional
agreement, given that the platform hands out a thread id that is not already
a key of the reverse table. -/
theorem dcCreateThreadStep_preserves (st : DcState) (env : DcEnv)
    (userKey username : String) (pre : List DcEffect)
    (hcons : ConsistentD st)
    (hk : mget st.userThreads userKey = none)
    (hfresh : ∀ nm tid, env.createThread nm = Except.ok tid →
      mget st.threadUsers tid = none) :
    ConsistentD (dcCreateThreadStep st env userKey username pre).2.1 := by
  unfold dcCreateThreadStep
  dsimp only
  cases hcr : env.createThread ("💬 " ++ username ++ " (" ++ userKey ++ ")") with
  | error e => exact hcons
  | ok tid =>
      dsimp only
      have hins := mapConsistent_insert hcons hk (hfresh _ _ hcr)
      cases hw : env.threadSend tid (dcWelcomeText username userKey) with
      | ok mid => exact hins
      | error e => exact hins

/-- Counterexample to C1: from the consistent state `5 ↔ topic 77`, the single
Engine operation `/link_topic 6 77` (processed by the management branch of the
message handler) completes leaving `unitOf(5) = 77` while
`identityOf(77) = 6 ≠ 5`: the two tables no longer agree bidirectionally, so
the claimed invariant does not survive every single Engine operation. -/
theorem claim1_counterexample :
    ConsistentT stPair ∧
    mget (onMessage cfgT stPair envA linkMsg).1.userTopics "5" = some 77 ∧
    mget (onMessage cfgT stPair envA linkMsg).1.topicUsers 77 = some "6" ∧
    ¬ ConsistentT (onMessage cfgT stPair envA linkMsg).1 := by
  refine ⟨mapConsistent_single "5" 77, by decide, by decide, ?_⟩
  intro hcon
  have h1 := hcon.1 "5" 77 (by decide)
  have h2 : mget (onMessage cfgT stPair envA linkMsg).1.topicUsers 77 = some "6" := by
    decide
  rw [h2] at h1
  exact absurd h1 (by decide)

/-- C1 amended: every mutation of the pair of tables writes both together;
unit creation (Telegram `getOrCreateUserTopic`, Discord
`getOrCreateUserThread` including its stale eviction) preserves bidirectional
agreement whenever the platform hands out fresh unit ids, and `/link_topic`
establishes agreement for the linked pair — preserving global agreement only
when neither the chat nor the topic was already bound. -/
theorem claim1_theorem (cfg : TgConfig) (st : TgState) (env : Env)
    (chatId : Int) (username : String) (c : String) (t : Nat)
    (std : DcState) (denv : DcEnv) (uid uname : String) (useThreads : Bool)
    (hcons : ConsistentT st)
    (hfresh : ∀ mg nm tid, env.createTopic mg nm = Except.ok tid →
      mget st.topicUsers tid = none)
    (hc : mget st.userTopics c = none)
    (ht : mget st.topicUsers t = none)
    (hconsD : ConsistentD std)
    (hfreshD : ∀ nm tid, denv.createThread nm = Except.ok tid →
      mget std.threadUsers tid = none)
    (hnonull : ∀ tid, denv.fetchChannel tid ≠ Except.ok false) :
    ConsistentT (getOrCreateUserTopic cfg st env chatId username).2.1 ∧
    (ConsistentT (applyLinkTopic st c t) ∧
      mget (applyLinkTopic st c t).userTopics c = some t ∧
      mget (applyLinkTopic st c t).topicUsers t = some c) ∧
    ConsistentD (getOrCreateUserThread useThreads std denv uid uname).2.1 := by
  refine ⟨?_, ⟨mapConsistent_insert hcons hc ht, mget_mset_self _ _ _, mget_mset_self _ _ _⟩, ?_⟩
  · unfold getOrCreateUserTopic
    cases hu : cfg.useTopics with
    | false => exact hcons
    | true =>
        dsimp only
        cases hg : mget st.userTopics (toString chatId) with
        | some tid => exact hcons
        | none =>
            dsimp only
            cases hcr : env.createTopic (mgmtChatStr cfg)
                (topicNameFor username (toString chatId)) with
            | error e => exact hcons
            | ok topicId =>
                dsimp only
                have hins := mapConsistent_insert hcons hg (hfresh _ _ _ hcr)
                cases hw : env.send (mgmtChatStr cfg) (some topicId) none
                    (welcomeText username (toString chatId)) with
                | ok wid => exact hins
                | error e => exact hins
  · unfold getOrCreateUserThread
    cases hut : useThreads with
    | false => exact hconsD
    | true =>
        dsimp only
        cases hg : mget std.userThreads uid with
        | none => exact dcCreateThreadStep_preserves std denv uid uname [] hconsD hg hfreshD
        | some threadId =>
            dsimp only
            cases hf : denv.fetchChannel threadId with
            | ok bres =>
                cases bres with
                | true => exact hconsD
                | false => exact absurd hf (hnonull threadId)
            | error e =>
                have hdel := mapConsistent_del hconsD hg
                refine dcCreateThreadStep_preserves
                  { userThreads := mdel std.userThreads uid,
                    threadUsers := mdel std.threadUsers threadId }
                  denv uid uname _ hdel ?_ ?_
                · exact mget_mdel_self _ _
                · intro nm tid hcrt
                  rw [mget_mdel]
                  by_cases htid : tid = threadId
                  · simp [htid]
                  · simp [htid, hfreshD nm tid hcrt]

/-- Witness for C1 (amended) at concrete inputs: creation from the empty
Telegram state, a fresh manual link, and a Discord evict-and-recreate. -/
theorem claim1_witness :
    ConsistentT (getOrCreateUserTopic cfgT emptySt envA 789 "alice").2.1 ∧
    (ConsistentT (applyLinkTopic emptySt "6" 77) ∧
      mget (applyLinkTopic emptySt "6" 77).userTopics "6" = some 77 ∧
      mget (applyLinkTopic emptySt "6" 77).topicUsers 77 = some "6") ∧
    ConsistentD (getOrCreateUserThread true stdPair denvW "9" "bob").2.1 :=
  claim1_theorem cfgT emptySt envA 789 "alice" "6" 77 stdPair denvW "9" "bob" true
    mapConsistent_nil (fun _ _ _ _ => rfl) rfl rfl
    (mapConsistent_single "9" "T1") (fun _ _ h => by cases h; decide)
    (fun _ h => by cases h)

/-- Counterexample to C2: with topic creation rejected for lack of rights, the
first inbound message from user 789 issues a create-unit call and falls back,
but the failure leaves no trace in the mapping tables, so the second inbound
message from the same identity issues another create-unit platform call —
the engine does retry creation. -/
theorem claim2_counterexample :
    hasCreateTopicCall (onMessage cfgT emptySt envPerm userMsg).2 = true ∧
    (onMessage cfgT emptySt envPerm userMsg).1.userTopics = [] ∧
    hasCreateTopicCall
      (onMessage cfgT (onMessage cfgT emptySt envPerm userMsg).1 envPerm userMsg).2
      = true := by
  refine ⟨by decide, by decide, by decide⟩

/-- C2 amended: when unit creation fails, the engine falls back to the
no-unit path for that message, but the failure is not cached — the mapping
state is left exactly as it was, so the next inbound message from the same
identity takes the same branch and issues a fresh create-unit platform call
(and re-emits the instructional notice, which is not deduplicated). -/
theorem claim2_theorem (cfg : TgConfig) (st : TgState) (env : Env)
    (chatId : Int) (username : String) (e : String)
    (huse : cfg.useTopics = true)
    (hnomap : mget st.userTopics (toString chatId) = none)
    (hcr : env.createTopic (mgmtChatStr cfg) (topicNameFor username (toString chatId))
      = Except.error e) :
    (getOrCreateUserTopic cfg st env chatId username).1 = none ∧
    (getOrCreateUserTopic cfg st env chatId username).2.1 = st ∧
    hasCreateTopicCall (getOrCreateUserTopic cfg st env chatId username).2.2 = true ∧
    (getOrCreateUserTopic cfg
      (getOrCreateUserTopic cfg st env chatId username).2.1 env chatId username).1
      = none ∧
    hasCreateTopicCall (getOrCreateUserTopic cfg
      (getOrCreateUserTopic cfg st env chatId username).2.1 env chatId username).2.2
      = true := by
  have h1 : getOrCreateUserTopic cfg st env chatId username =
      (none, st,
        Effect.createTopic (mgmtChatStr cfg) (topicNameFor username (toString chatId))
            (Except.error e)
          :: topicCreationCatch env (mgmtChatStr cfg) username (toString chatId) e) := by
    unfold getOrCreateUserTopic
    rw [huse]
    dsimp only
    rw [hnomap]
    dsimp only
    rw [hcr]
    rfl
  refine ⟨?_, ?_, ?_, ?_, ?_⟩
  · rw [h1]
  · rw [h1]
  · rw [h1]
    simp [hasCreateTopicCall]
  · rw [h1]
    dsimp only
    rw [h1]
  · rw [h1]
    dsimp only
    rw [h1]
    simp [hasCreateTopicCall]

/-- Witness for C2 (amended) at the concrete permission-failure oracle. -/
theorem claim2_witness :
    (getOrCreateUserTopic cfgT emptySt envPerm 789 "alice").1 = none ∧
    (getOrCreateUserTopic cfgT emptySt envPerm 789 "alice").2.1 = emptySt ∧
    hasCreateTopicCall (getOrCreateUserTopic cfgT emptySt envPerm 789 "alice").2.2 = true ∧
    (getOrCreateUserTopic cfgT
      (getOrCreateUserTopic cfgT emptySt envPerm 789 "alice").2.1 envPerm 789 "alice").1
      = none ∧
    hasCreateTopicCall (getOrCreateUserTopic cfgT
      (getOrCreateUserTopic cfgT emptySt envPerm 789 "alice").2.1 envPerm 789 "alice").2.2
      = true :=
  claim2_theorem cfgT emptySt envPerm 789 "alice" "not enough rights" rfl rfl rfl

/-- Counterexample to C3: the Telegram engine performs no liveness check at
all for a cached mapping — `getOrCreateUserTopic` on the established mapping
`5 ↔ 77` returns the cached topic with an empty platform trace, on an oracle
whose every call reports the unit missing. -/
theorem claim3_counterexample :
    getOrCreateUserTopic cfgT stPair envDead 5 "alice" = (some 77, stPair, []) ∧
    envDead.createTopic "100" "x" = Except.error "not found" ∧
    envDead.send "100" none none "x" = Except.error "chat not found" := by
  refine ⟨by decide, rfl, rfl⟩

/-- C3 amended: the at-most-one-unit part holds on both platforms (a cached
mapping is never re-created while it is honoured), but only the Discord
engine verifies liveness: `getOrCreateUserThread` fetches the cached thread,
returns it when the platform resolves it, and on a rejection evicts both
directions of the mapping before proceeding to create a new one; the
Telegram `getOrCreateUserTopic` returns the cached unit without any platform
existence check. -/
theorem claim3_theorem (cfg : TgConfig) (st : TgState) (env : Env)
    (chatId : Int) (username : String) (t : Nat)
    (std : DcState) (denv : DcEnv) (uid uname tid : String)
    (hcache : mget st.userTopics (toString chatId) = some t)
    (hcacheD : mget std.userThreads uid = some tid) :
    getOrCreateUserTopic cfg st env chatId username
      = (if cfg.useTopics then (some t, st, []) else (none, st, [])) ∧
    (denv.fetchChannel tid = Except.ok true →
      getOrCreateUserThread true std denv uid uname =
        (some tid, std, [DcEffect.fetchChannel tid (Except.ok true)])) ∧
    (∀ e, denv.fetchChannel tid = Except.error e →
      (∀ nm tid2, denv.createThread nm = Except.ok tid2 → tid2 ≠ tid) →
      mget (getOrCreateUserThread true std denv uid uname).2.1.threadUsers tid = none ∧
      mget (getOrCreateUserThread true std denv uid uname).2.1.userThreads uid ≠ some tid ∧
      hasDcCreateCall (getOrCreateUserThread true std denv uid uname).2.2 = true) := by
  refine ⟨?_, ?_, ?_⟩
  · unfold getOrCreateUserTopic
    cases hu : cfg.useTopics with
    | false => rfl
    | true =>
        dsimp only
        rw [hcache]
        rfl
  · intro hlive
    unfold getOrCreateUserThread
    dsimp only
    rw [hcacheD]
    dsimp only
    rw [hlive]
    rfl
  · intro e hstale hfreshid
    have hrun : getOrCreateUserThread true std denv uid uname =
        dcCreateThreadStep
          { userThreads := mdel std.userThreads uid,
            threadUsers := mdel std.threadUsers tid }
          denv uid uname [DcEffect.fetchChannel tid (Except.error e)] := by
      unfold getOrCreateUserThread
      dsimp only
      rw [hcacheD]
      dsimp only
      rw [hstale]
      rfl
    rw [hrun]
    unfold dcCreateThreadStep
    dsimp only
    cases hcr : denv.createThread ("💬 " ++ uname ++ " (" ++ uid ++ ")") with
    | ok tid2 =>
        dsimp only
        have hne := hfreshid _ _ hcr
        cases hw : denv.threadSend tid2 (dcWelcomeText uname uid) with
        | ok mid =>
            refine ⟨?_, ?_, by simp [hasDcCreateCall]⟩
            · rw [mget_mset_of_ne _ _ _ _ (fun hh => hne hh.symm)]
              exact mget_mdel_self _ _
            · rw [mget_mset_self]
              intro hh
              injection hh with hh2
              exact hne hh2
        | error e2 =>
            refine ⟨?_, ?_, by simp [hasDcCreateCall]⟩
            · rw [mget_mset_of_ne _ _ _ _ (fun hh => hne hh.symm)]
              exact mget_mdel_self _ _
            · rw [mget_mset_self]
              intro hh
              injection hh with hh2
              exact hne hh2
    | error e2 =>
        refine ⟨mget_mdel_self _ _, ?_, by simp [hasDcCreateCall]⟩
        rw [mget_mdel_self]
        intro hh
        cases hh

/-- Witness for C3 (amended): the Telegram cached path, the Discord live
path, and the Discord stale path at concrete inputs. -/
theorem claim3_witness :
    getOrCreateUserTopic cfgT stPair envDead 5 "bob"
      = (if cfgT.useTopics then (some 77, stPair, []) else (none, stPair, [])) ∧
    getOrCreateUserThread true stdPair denvLive "9" "bob" =
      (some "T1", stdPair, [DcEffect.fetchChannel "T1" (Except.ok true)]) ∧
    (mget (getOrCreateUserThread true stdPair denvW "9" "bob").2.1.threadUsers "T1" = none ∧
      mget (getOrCreateUserThread true stdPair denvW "9" "bob").2.1.userThreads "9" ≠ some "T1" ∧
      hasDcCreateCall (getOrCreateUserThread true stdPair denvW "9" "bob").2.2 = true) :=
  ⟨(claim3_theorem cfgT stPair envDead 5 "bob" 77 stdPair denvLive "9" "bob" "T1"
      rfl rfl).1,
   (claim3_theorem cfgT stPair envDead 5 "bob" 77 stdPair denvLive "9" "bob" "T1"
      rfl rfl).2.1 rfl,
   (claim3_theorem cfgT stPair envDead 5 "bob" 77 stdPair denvW "9" "bob" "T1"
      rfl rfl).2.2 "Unknown Channel" rfl
      (fun _ _ h => by cases h; decide)⟩

/-- Counterexample to C8: with the management surface unconfigured the
handler answers an inbound external message with the setup notice only — it
produces no persistence record call, contradicting the claim that every
inbound external message is recorded even in self-setup mode. -/
theorem claim8_counterexample :
    (onMessage cfgN emptySt envA userMsg).2.any isLogEffect = false ∧
    (onMessage cfgN emptySt envA userMsg).2 ≠ [] := by
  refine ⟨by decide, by decide⟩

/-- C8 amended: with the management surface configured, every inbound
external (non-bot, non-management) message is recorded — the log is the first
effect of the handler; but in self-setup mode the message only triggers the
setup notice and no record call is made. -/
theorem claim8_theorem (cfg : TgConfig) (st : TgState) (env : Env)
    (msg : TgMessage) (mgmt : String)
    (hm : cfg.managementChatId = some mgmt)
    (hbot : msgIsBot msg = false)
    (hchat : toString msg.chatId ≠ mgmt)
    (cfg0 : TgConfig) (st0 : TgState) (env0 : Env) (msg0 : TgMessage)
    (hm0 : cfg0.managementChatId = none) :
    (∃ rest, (onMessage cfg st env msg).2 =
      Effect.log "telegram" msg.messageId :: rest) ∧
    (onMessage cfg0 st0 env0 msg0).2.any isLogEffect = false ∧
    (onMessage cfg0 st0 env0 msg0).1 = st0 := by
  refine ⟨?_, ?_, ?_⟩
  · unfold onMessage
    rw [hm, hbot]
    simp [hchat]
  · unfold onMessage
    rw [hm0]
    cases hb : msgIsBot msg0 with
    | true => rfl
    | false =>
        unfold setupManagementChatId
        rw [hb]
        rfl
  · unfold onMessage
    rw [hm0]
    cases hb : msgIsBot msg0 <;> rfl

/-- Witness for C8 (amended): a configured deployment logs the inbound
message first; the unconfigured deployment logs nothing for it. -/
theorem claim8_witness :
    (∃ rest, (onMessage cfgF emptySt envA userMsg).2 =
      Effect.log "telegram" userMsg.messageId :: rest) ∧
    (onMessage cfgN emptySt envA userMsg).2.any isLogEffect = false ∧
    (onMessage cfgN emptySt envA userMsg).1 = emptySt :=
  claim8_theorem cfgF emptySt envA userMsg "100" rfl rfl (by decide)
    cfgN emptySt envA userMsg rfl

/-! C9 — the forwarded-message index is never pruned. -/

theorem legacyBranch_fmap (st : TgState) (env : Env) (mgmt text : String) :
    (legacyBranch st env mgmt text).2.1.forwardedMessageMap
      = st.forwardedMessageMap := by
  unfold legacyBranch
  split
  · rfl
  · split
    · dsimp only
      split
      · rfl
      · rfl
    · rfl

theorem handleManagementReply_fmap (cfg : TgConfig) (st : TgState) (env : Env)
    (msg : TgMessage) :
    (handleManagementReply cfg st env msg).2.1.forwardedMessageMap
      = st.forwardedMessageMap := by
  unfold handleManagementReply
  dsimp only
  split
  · rfl
  · split
    · split
      · rfl
      · split
        · split
          · rfl
          · exact legacyBranch_fmap _ _ _ _
        · exact legacyBranch_fmap _ _ _ _
    · exact legacyBranch_fmap _ _ _ _

theorem mgmtHelpCheck_state (st : TgState) (env : Env) (mgmt : String)
    (useTopics : Bool) (msg : TgMessage) :
    (mgmtHelpCheck st env mgmt useTopics msg).1 = st := by
  unfold mgmtHelpCheck
  split <;> rfl

theorem handleMgmtBranch_fmap (cfg : TgConfig) (st : TgState) (env : Env)
    (msg : TgMessage) :
    (handleMgmtBranch cfg st env msg).1.forwardedMessageMap
      = st.forwardedMessageMap := by
  have hmr := handleManagementReply_fmap cfg st env msg
  unfold handleMgmtBranch
  dsimp only
  split
  · exact hmr
  · split
    · exact hmr
    · split
      · exact hmr
      · split
        · split
          · exact hmr
          · exact hmr
        · split
          · split
            · exact hmr
            · rw [mgmtHelpCheck_state]
              exact hmr
          · rw [mgmtHelpCheck_state]
            exact hmr

theorem testManagementChat_fmap (cfg : TgConfig) (st : TgState) (env : Env) :
    (testManagementChat cfg st env).2.1.forwardedMessageMap
      = st.forwardedMessageMap := by
  unfold testManagementChat
  split
  · rfl
  · dsimp only
    split <;> rfl

theorem getOrCreateUserTopic_fmap (cfg : TgConfig) (st : TgState) (env : Env)
    (chatId : Int) (username : String) :
    (getOrCreateUserTopic cfg st env chatId username).2.1.forwardedMessageMap
      = st.forwardedMessageMap := by
  unfold getOrCreateUserTopic
  split
  · rfl
  · dsimp only
    split
    · rfl
    · split
      · split <;> rfl
      · rfl

theorem forwardSendPhase_fmap_mono (cfg : TgConfig) (st0 : TgState) (env : Env)
    (msg : TgMessage) (mgmt : String) (k v : String)
    (hfresh : ∀ c t r x i, env.send c t r x = Except.ok i →
      mget st0.forwardedMessageMap (toString i) = none)
    (hk : mget st0.forwardedMessageMap k = some v) :
    mget (forwardSendPhase cfg st0 env msg mgmt).1.forwardedMessageMap k
      = some v := by
  unfold forwardSendPhase
  dsimp only
  generalize hG : (if cfg.useTopics then
      getOrCreateUserTopic cfg st0 env msg.chatId (msgUsername msg)
    else (none, st0, ([] : List Effect))) = g
  have hgf : g.2.1.forwardedMessageMap = st0.forwardedMessageMap := by
    rw [← hG]
    split
    · exact getOrCreateUserTopic_fmap _ _ _ _ _
    · rfl
  obtain ⟨tI, st1, effs⟩ := g
  dsimp only at hgf ⊢
  cases tI with
  | some tid =>
      cases hs : env.send mgmt (some tid) none (jsOrStr msg.text "No text content") with
      | ok fid =>
          dsimp only
          rw [mget_mset_of_ne]
          · rw [hgf]
            exact hk
          · intro hkf
            rw [hkf, hfresh _ _ _ _ _ hs] at hk
            cases hk
      | error e =>
          dsimp only
          split
          · show mget st1.forwardedMessageMap k = some v
            rw [hgf]
            exact hk
          · show mget st1.forwardedMessageMap k = some v
            rw [hgf]
            exact hk
  | none =>
      cases hs : env.send mgmt none none
          ("*" ++ msgUsername msg ++ "*: " ++ jsOrStr msg.text "No text content") with
      | ok fid =>
          dsimp only
          rw [mget_mset_of_ne]
          · rw [hgf]
            exact hk
          · intro hkf
            rw [hkf, hfresh _ _ _ _ _ hs] at hk
            cases hk
      | error e =>
          dsimp only
          split
          · show mget st1.forwardedMessageMap k = some v
            rw [hgf]
            exact hk
          · show mget st1.forwardedMessageMap k = some v
            rw [hgf]
            exact hk

/-- C9: no Engine operation removes an entry of the Forwarded-Message Index:
across any invocation of the message handler — operator commands, reply
resolution, manual linking, or a new inbound forward — every existing binding
`k → v` of `forwardedMessageMap` survives unchanged, provided the platform
hands out fresh message ids for new sends (established entries are never
deleted nor overwritten; the map only accumulates). -/
theorem claim9_theorem (cfg : TgConfig) (st : TgState) (env : Env)
    (msg : TgMessage) (k v : String)
    (hfresh : ∀ c t r x i, env.send c t r x = Except.ok i →
      mget st.forwardedMessageMap (toString i) = none)
    (hk : mget st.forwardedMessageMap k = some v) :
    mget (onMessage cfg st env msg).1.forwardedMessageMap k = some v := by
  unfold onMessage
  cases hm : cfg.managementChatId with
  | none =>
      dsimp only
      cases hb : msgIsBot msg
      · exact hk
      · exact hk
  | some mgmt =>
      dsimp only
      split
      · rw [handleMgmtBranch_fmap]
        exact hk
      · split
        · unfold forwardToManagement
          rw [hm]
          dsimp only
          cases hv : st.managementChatVerified with
          | true =>
              show mget (forwardSendPhase cfg st env msg mgmt).1.forwardedMessageMap k
                = some v
              exact forwardSendPhase_fmap_mono cfg st env msg mgmt k v hfresh hk
          | false =>
              show mget (if (!(testManagementChat cfg st env).1) = true then
                    ((testManagementChat cfg st env).2.1,
                      (testManagementChat cfg st env).2.2)
                  else
                    ((forwardSendPhase cfg (testManagementChat cfg st env).2.1
                        env msg mgmt).1,
                      (testManagementChat cfg st env).2.2
                        ++ (forwardSendPhase cfg (testManagementChat cfg st env).2.1
                            env msg mgmt).2)).1.forwardedMessageMap k = some v
              cases hb2 : (testManagementChat cfg st env).1 with
              | false =>
                  have hres : mget (testManagementChat cfg st env).2.1.forwardedMessageMap k
                      = some v := by
                    rw [testManagementChat_fmap]
                    exact hk
                  exact hres
              | true =>
                  have hres : mget (forwardSendPhase cfg
                      (testManagementChat cfg st env).2.1 env msg mgmt).1.forwardedMessageMap k
                      = some v := by
                    refine forwardSendPhase_fmap_mono cfg _ env msg mgmt k v ?_ ?_
                    · intro c t r x i hs0
                      rw [testManagementChat_fmap]
                      exact hfresh c t r x i hs0
                    · rw [testManagementChat_fmap]
                      exact hk
                  exact hres
        · exact hk

/-- Witness for C9: an established index entry survives a handler invocation
on a dead platform (no successful sends, so freshness holds vacuously). -/
theorem claim9_witness :
    mget (onMessage cfgF stMap4 envDead userMsg).1.forwardedMessageMap "41"
      = some "789" :=
  claim9_theorem cfgF stMap4 envDead userMsg "41" "789"
    (fun _ _ _ _ _ h => Except.noConfusion h) rfl

/-! C10 — the legacy reply path deletes the ForwardRecord; the other reply
paths do not. -/

/-- C10: a successful legacy reply (`r<digits> <text>`) deletes the
ForwardRecord of the target — not merely overwrites it — so a subsequent
`/info` for that chat id reports no pending conversation; whereas resolving
an operator reply through the forwarded-message index or through the unit
mapping leaves the ForwardRecord store unchanged. -/
theorem claim10_theorem (cfg : TgConfig) (st : TgState) (env : Env)
    (msg1 : TgMessage) (tgt body : String) (sid cid : Nat)
    (hm : legacyReplyMatch (msg1.text.getD "") = some (tgt, body))
    (hth : msg1.messageThreadId = none)
    (hrep : msg1.replyToMessageId = none)
    (hs1 : env.send tgt none none body = Except.ok sid)
    (hs2 : env.send (mgmtChatStr cfg) none none (legacyConfirmText st tgt body)
      = Except.ok cid)
    (msgI : TgMessage) (hmi : msgI.text = some ("/info " ++ tgt))
    (msg2 : TgMessage) (rid : Nat) (u : String)
    (hrid2 : replyIdOf msg2 = some rid)
    (hmap2 : mget st.forwardedMessageMap (toString rid) = some u)
    (msg3 : TgMessage) (tid3 : Nat) (u3 : String)
    (hb3 : branch1Target cfg st msg3 = some (tid3, u3)) :
    (handleManagementReply cfg st env msg1).1 = true ∧
    (handleManagementReply cfg st env msg1).2.1
      = { st with pendingReplies := mdel st.pendingReplies tgt } ∧
    mget (handleManagementReply cfg st env msg1).2.1.pendingReplies tgt = none ∧
    (handleInfoCommand (handleManagementReply cfg st env msg1).2.1 env
      (mgmtChatStr cfg) msgI).1 = true ∧
    (handleInfoCommand (handleManagementReply cfg st env msg1).2.1 env
      (mgmtChatStr cfg) msgI).2
      = [Effect.send (mgmtChatStr cfg) none none
          ("❌ No pending conversation found for chat ID: " ++ tgt)
          (env.send (mgmtChatStr cfg) none none
            ("❌ No pending conversation found for chat ID: " ++ tgt))] ∧
    (handleManagementReply cfg st env msg2).2.1 = st ∧
    (handleManagementReply cfg st env msg3).2.1 = st := by
  have hb1 : branch1Target cfg st msg1 = none := by
    unfold branch1Target
    cases hu : cfg.useTopics
    · simp
    · simp [hth, truthyN]
  have hri : replyIdOf msg1 = none := by
    unfold replyIdOf truthyN
    rw [hrep]
  have hlegeq : legacyBranch st env (mgmtChatStr cfg) (msg1.text.getD "")
      = (true, { st with pendingReplies := mdel st.pendingReplies tgt },
        [Effect.send tgt none none body (Except.ok sid),
         Effect.log "telegram" sid,
         Effect.send (mgmtChatStr cfg) none none (legacyConfirmText st tgt body)
           (Except.ok cid)]) := by
    unfold legacyBranch
    rw [hm]
    dsimp only
    rw [hs1]
    dsimp only
    rw [hs2]
  have hHMR : handleManagementReply cfg st env msg1
      = (true, { st with pendingReplies := mdel st.pendingReplies tgt },
        [Effect.send tgt none none body (Except.ok sid),
         Effect.log "telegram" sid,
         Effect.send (mgmtChatStr cfg) none none (legacyConfirmText st tgt body)
           (Except.ok cid)]) := by
    unfold handleManagementReply
    rw [hb1, hri]
    exact hlegeq
  have hdigits := legacyReplyMatch_digits (msg1.text.getD "") tgt body hm
  have hinfo : infoMatch (msgI.text.getD "") = some tgt := by
    rw [hmi]
    exact infoMatch_of_digits tgt hdigits.1 hdigits.2
  have hInfoEq : handleInfoCommand
      { st with pendingReplies := mdel st.pendingReplies tgt } env
      (mgmtChatStr cfg) msgI
      = (true, [Effect.send (mgmtChatStr cfg) none none
          ("❌ No pending conversation found for chat ID: " ++ tgt)
          (env.send (mgmtChatStr cfg) none none
            ("❌ No pending conversation found for chat ID: " ++ tgt))]) := by
    unfold handleInfoCommand
    rw [hinfo]
    dsimp only
    rw [mget_mdel_self]
  have hF2 : (handleManagementReply cfg st env msg2).2.1 = st := by
    have hb1' := branch1Target_eq_none_of_reply cfg st msg2 rid hrid2
    unfold handleManagementReply
    rw [hb1', hrid2]
    dsimp only
    rw [hmap2]
  have hF3 : (handleManagementReply cfg st env msg3).2.1 = st := by
    unfold handleManagementReply
    rw [hb3]
  refine ⟨?_, ?_, ?_, ?_, ?_, hF2, hF3⟩
  · rw [hHMR]
  · rw [hHMR]
  · rw [hHMR]
    exact mget_mdel_self _ _
  · rw [hHMR, hInfoEq]
  · rw [hHMR, hInfoEq]

/-- Witness for C10 at concrete inputs: the legacy reply `r123 hello there`
deletes the record of 123, the follow-up `/info 123` reports no pending
conversation, and a reply-to-41 and a plain topic-71 message leave the
ForwardRecord store untouched. -/
theorem claim10_witness :
    (handleManagementReply cfgT stP10 envA msgR6).1 = true ∧
    (handleManagementReply cfgT stP10 envA msgR6).2.1
      = { stP10 with pendingReplies := mdel stP10.pendingReplies "123" } ∧
    mget (handleManagementReply cfgT stP10 envA msgR6).2.1.pendingReplies "123" = none ∧
    (handleInfoCommand (handleManagementReply cfgT stP10 envA msgR6).2.1 envA
      (mgmtChatStr cfgT) msgI10).1 = true ∧
    (handleInfoCommand (handleManagementReply cfgT stP10 envA msgR6).2.1 envA
      (mgmtChatStr cfgT) msgI10).2
      = [Effect.send (mgmtChatStr cfgT) none none
          ("❌ No pending conversation found for chat ID: " ++ "123")
          (envA.send (mgmtChatStr cfgT) none none
            ("❌ No pending conversation found for chat ID: " ++ "123"))] ∧
    (handleManagementReply cfgT stP10 envA msgRep4).2.1 = stP10 ∧
    (handleManagementReply cfgT stP10 envA msgT5).2.1 = stP10 :=
  claim10_theorem cfgT stP10 envA msgR6 "123" "hello there" 41 41
    (by decide) rfl rfl rfl rfl
    msgI10 (by decide)
    msgRep4 41 "789" rfl rfl
    msgT5 71 "456" (by decide)
